import Mathlib

set_option maxHeartbeats 1000000

/-!
Verification development for the antique-backend chat service
(src/fastapi-backend/main.py).  The Python source is shallowly embedded:
datetimes become Nat timestamps (seconds), the parsed JSON of the provider
response becomes the inductive type JVal, Python exceptions escaping to an
enclosing try/except become explicit failure values, and the network is an
explicit parameter (NetOutcome) describing what the single outbound POST
would observe.
-/

/-- One conversation turn, a dict with keys role and content in the source
(UserSession.messages elements, main.py line 66). -/
structure Turn where
  role : String
  content : String
deriving DecidableEq, Repr

/-- Session state of one user: main.py lines 57-62.  Timestamps are modelled
as Nat seconds. -/
structure UserSession where
  user_id : String
  messages : List Turn
  created_at : Nat
  last_activity : Nat
deriving DecidableEq, Repr

/-- UserSession.__init__ (main.py lines 58-62): empty history, both
timestamps set to the current time. -/
def UserSession.mk_new (uid : String) (now : Nat) : UserSession :=
  { user_id := uid, messages := [], created_at := now, last_activity := now }

/-- UserSession.add_message (main.py lines 64-71): append the turn, update
last_activity, then if more than 6 messages are stored keep only the last 6
(the Python slice messages[-6:]). -/
def UserSession.add_message (s : UserSession) (now : Nat) (role content : String) : UserSession :=
  { user_id := s.user_id
    messages :=
      if 6 < (s.messages ++ [Turn.mk role content]).length then
        (s.messages ++ [Turn.mk role content]).drop ((s.messages ++ [Turn.mk role content]).length - 6)
      else s.messages ++ [Turn.mk role content]
    created_at := s.created_at
    last_activity := now }

/-- The suffix of the last n elements of a list; l.drop (l.length - n) is
exactly the Python slice l[-n:] for nonempty outcomes. -/
def keepLast {α : Type} (n : Nat) (l : List α) : List α :=
  l.drop (l.length - n)

/-- A whole sequence of add_message calls, each given as
(timestamp, role, content). -/
def append_turns (s : UserSession) (ts : List (Nat × String × String)) : UserSession :=
  ts.foldl (fun acc t => acc.add_message t.1 t.2.1 t.2.2) s

/-- The pair of appends performed by every completed chat turn
(main.py lines 372-373 and 386-387): first the user message, then the
assistant reply. -/
def chat_reply_pair (now : Nat) (session : UserSession) (message reply : String) : UserSession :=
  (session.add_message now "user" message).add_message now "assistant" reply

/-- needle is a prefix of hay, over character lists. -/
def charsStartWith : List Char → List Char → Bool
  | [], _ => true
  | _ :: _, [] => false
  | a :: as, b :: bs => a == b && charsStartWith as bs

/-- needle occurs as a contiguous sublist of hay. -/
def charsContain (needle : List Char) : List Char → Bool
  | [] => needle.isEmpty
  | c :: rest => charsStartWith needle (c :: rest) || charsContain needle rest

/-- Python substring membership: needle in hay.  The empty needle is a
member of every string, as in Python. -/
def strContains (hay needle : String) : Bool :=
  charsContain needle.data hay.data

/-- Python str.lower, restricted to the per-character ASCII case mapping
(the identity on every character appearing in this code base). -/
def pyLower (s : String) : String :=
  String.mk (s.data.map Char.toLower)

/-- Drop leading whitespace characters. -/
def dropWhileWs : List Char → List Char
  | [] => []
  | c :: rest => if c.isWhitespace then dropWhileWs rest else c :: rest

/-- Python str.strip(): remove whitespace from both ends. -/
def pyStrip (s : String) : String :=
  String.mk ((dropWhileWs (dropWhileWs s.data).reverse).reverse)

/-- Python slice s[:n]. -/
def pyTake (n : Nat) (s : String) : String :=
  String.mk (s.data.take n)

/-- A parsed JSON value, the result of response.json() in the source. -/
inductive JVal where
  | jnull
  | jbool (b : Bool)
  | jnum (n : Int)
  | jstr (s : String)
  | jarr (items : List JVal)
  | jobj (fields : List (String × JVal))

/-- Python membership test k in v for a string k.  none models a TypeError
(membership test on a number, bool or null); on dicts it is a key test, on
strings a substring test, on lists an element-equality test. -/
def pyIn (k : String) : JVal → Option Bool
  | JVal.jobj fields => some (fields.any (fun f => f.1 = k))
  | JVal.jstr s => some (strContains s k)
  | JVal.jarr items =>
    some (items.any (fun it =>
      match it with
      | JVal.jstr s => s = k
      | _ => false))
  | _ => none

/-- Python subscript v[k] for a string key k.  none models the exception
(KeyError on a dict without the key, TypeError on every non-dict). -/
def pySubscript (v : JVal) (k : String) : Option JVal :=
  match v with
  | JVal.jobj fields => fields.lookup k
  | _ => none

/-- Python subscript v[0].  none models the exception (IndexError on an
empty list or string, KeyError on a dict whose keys are strings, TypeError
otherwise). -/
def pyIndex0J : JVal → Option JVal
  | JVal.jarr (x :: _) => some x
  | JVal.jstr s =>
    match s.data with
    | c :: _ => some (JVal.jstr (String.mk [c]))
    | [] => none
  | _ => none

/-- Python len(v).  none models the TypeError on numbers, bools and null. -/
def pyLen : JVal → Option Nat
  | JVal.jstr s => some s.length
  | JVal.jarr items => some items.length
  | JVal.jobj fields => some fields.length
  | _ => none

/-- Python truthiness of a parsed JSON value. -/
def jTruthy : JVal → Bool
  | JVal.jnull => false
  | JVal.jbool b => b
  | JVal.jnum n => n != 0
  | JVal.jstr s => s != ""
  | JVal.jarr items => !items.isEmpty
  | JVal.jobj fields => !fields.isEmpty

mutual

/-- Python repr of a parsed JSON value (dicts and lists print with single
quotes around strings); character escaping inside strings is not modelled,
no string in this code base needs it. -/
def pyRepr : JVal → String
  | JVal.jnull => "None"
  | JVal.jbool true => "True"
  | JVal.jbool false => "False"
  | JVal.jnum n => toString n
  | JVal.jstr s => "\x27" ++ s ++ "\x27"
  | JVal.jarr items => "[" ++ pyReprItems items ++ "]"
  | JVal.jobj fields => "\x7b" ++ pyReprFields fields ++ "\x7d"

/-- Comma-separated reprs of list items. -/
def pyReprItems : List JVal → String
  | [] => ""
  | [x] => pyRepr x
  | x :: y :: xs => pyRepr x ++ ", " ++ pyReprItems (y :: xs)

/-- Comma-separated key: value reprs of dict fields. -/
def pyReprFields : List (String × JVal) → String
  | [] => ""
  | [(k, v)] => "\x27" ++ k ++ "\x27: " ++ pyRepr v
  | (k, v) :: f :: fs => "\x27" ++ k ++ "\x27: " ++ pyRepr v ++ ", " ++ pyReprFields (f :: fs)

end

/-- Python str(v): a string prints as itself, everything else as its repr. -/
def pyStr : JVal → String
  | JVal.jstr s => s
  | v => pyRepr v

/-- The coercion applied when a JVal reaches the response text field of
ChatResponse: strings pass through, other values print. -/
def jvalToStr : JVal → String
  | JVal.jstr s => s
  | v => pyRepr v

/-- The diagnostic string built at main.py line 310 when no response shape
matched: the fixed prefix followed by str(data)[:300]. -/
def dump_reply (data : JVal) : String :=
  "响应格式不识别，原始数据: " ++ pyTake 300 (pyStr data)

/-- Outcome of the if/elif shape-dispatch chain of main.py lines 274-301.
exc: a Python exception escaped the chain (caught at line 320, the function
returns None).  resp v: ai_response was assigned v.  nomatch: ai_response
stayed None. -/
inductive ParseOut where
  | exc
  | resp (v : JVal)
  | nomatch

/-- The elif branch at main.py lines 282-283: if the text key is in the
first choice, take it; otherwise ai_response stays None. -/
def choice_text_field (choice : JVal) : ParseOut :=
  match pyIn "text" choice with
  | none => ParseOut.exc
  | some true =>
    match pySubscript choice "text" with
    | none => ParseOut.exc
    | some t => ParseOut.resp t
  | some false => ParseOut.nomatch

/-- Main.py lines 279-283: take choice.message.content if the message key
is in the choice and the content key is in the message, else fall back to
the text key of the choice. -/
def choice_message_content (choice : JVal) : ParseOut :=
  match pyIn "message" choice with
  | none => ParseOut.exc
  | some false => choice_text_field choice
  | some true =>
    match pySubscript choice "message" with
    | none => ParseOut.exc
    | some msg =>
      match pyIn "content" msg with
      | none => ParseOut.exc
      | some false => choice_text_field choice
      | some true =>
        match pySubscript msg "content" with
        | none => ParseOut.exc
        | some c => ParseOut.resp c

/-- Main.py lines 297-301 (branch 4, the output key): a string output is
taken as is, otherwise output.text is taken when the text key is present;
with no match ai_response stays None. -/
def shape_output (data : JVal) : ParseOut :=
  match pyIn "output" data with
  | none => ParseOut.exc
  | some false => ParseOut.nomatch
  | some true =>
    match pySubscript data "output" with
    | none => ParseOut.exc
    | some (JVal.jstr s) => ParseOut.resp (JVal.jstr s)
    | some out =>
      match pyIn "text" out with
      | none => ParseOut.exc
      | some false => ParseOut.nomatch
      | some true =>
        match pySubscript out "text" with
        | none => ParseOut.exc
        | some t => ParseOut.resp t

/-- Main.py lines 290-294 (branch 3, the data key): when data.choices is
present and truthy, only message.content of its first element is tried;
with no match ai_response stays None (there is no fall-through to the
output branch once the data key is present). -/
def shape_data (data : JVal) : ParseOut :=
  match pyIn "data" data with
  | none => ParseOut.exc
  | some false => shape_output data
  | some true =>
    match pySubscript data "data" with
    | none => ParseOut.exc
    | some dd =>
      match pyIn "choices" dd with
      | none => ParseOut.exc
      | some false => ParseOut.nomatch
      | some true =>
        match pySubscript dd "choices" with
        | none => ParseOut.exc
        | some chs =>
          if jTruthy chs then
            match pyIndex0J chs with
            | none => ParseOut.exc
            | some choice =>
              match pyIn "message" choice with
              | none => ParseOut.exc
              | some false => ParseOut.nomatch
              | some true =>
                match pySubscript choice "message" with
                | none => ParseOut.exc
                | some msg =>
                  match pyIn "content" msg with
                  | none => ParseOut.exc
                  | some false => ParseOut.nomatch
                  | some true =>
                    match pySubscript msg "content" with
                    | none => ParseOut.exc
                    | some c => ParseOut.resp c
          else ParseOut.nomatch

/-- Main.py lines 286-287 (branch 2, the flat content key). -/
def shape_flat_content (data : JVal) : ParseOut :=
  match pyIn "content" data with
  | none => ParseOut.exc
  | some false => shape_data data
  | some true =>
    match pySubscript data "content" with
    | none => ParseOut.exc
    | some c => ParseOut.resp c

/-- The whole if/elif chain of main.py lines 274-301.  Branch 1 fires when
the choices key is present and len(data.choices) > 0; the elif branches are
only reached when that condition is false. -/
def extract_ai_response (data : JVal) : ParseOut :=
  match pyIn "choices" data with
  | none => ParseOut.exc
  | some false => shape_flat_content data
  | some true =>
    match pySubscript data "choices" with
    | none => ParseOut.exc
    | some chs =>
      match pyLen chs with
      | none => ParseOut.exc
      | some 0 => shape_flat_content data
      | some (_ + 1) =>
        match pyIndex0J chs with
        | none => ParseOut.exc
        | some choice => choice_message_content choice

/-- Main.py lines 270-310 for a status-200 response body: a truthy
ai_response is returned, otherwise the diagnostic dump string is returned
(line 310); an escaped exception makes the whole call return None via the
handlers at lines 317-322. -/
def parse_success_body (data : JVal) : Option JVal :=
  match extract_ai_response data with
  | ParseOut.exc => none
  | ParseOut.resp v => if jTruthy v then some v else some (JVal.jstr (dump_reply data))
  | ParseOut.nomatch => some (JVal.jstr (dump_reply data))

/-- What the single outbound POST of get_ai_response_with_memory would
observe: a transport error or timeout, or a reply with a status code and a
parsed JSON body. -/
inductive NetOutcome where
  | down
  | reply (status : Nat) (body : JVal)

/-- Result of get_ai_response_with_memory plus whether the network was
consulted at all. -/
structure AICallResult where
  result : Option JVal
  network_called : Bool

/-- Truthiness of the BAICHUAN_API_KEY environment value as tested at
main.py line 214: an absent or empty credential is falsy. -/
def apiKeyConfigured : Option String → Bool
  | none => false
  | some k => k != ""

/-- The fixed system instruction of main.py lines 221-243. -/
def baichuan_system_content : String :=
  "你是一个专业、严谨、知识渊博的文物鉴定助手-文鉴通助手。你具有以下特点：\n\n文物知识领域：\n1. 文物历史背景和年代鉴定专业知识\n2. 各类文物材质、工艺技术分析（陶瓷、书画、青铜器、玉器等）\n3. 文物真伪鉴别要点和方法\n4. 文物收藏价值和市场行情分析\n5. 文物保护与修复专业知识\n6. 相关法律法规和文物政策\n\n专业服务风格：\n1. 回答要专业严谨，基于历史事实和专业知识\n2. 对于需要实物鉴定的情况，明确说明局限性并建议寻求专业机构\n3. 适当使用专业术语但要解释清楚\n4. 保持客观中立，不夸大文物价值\n5. 强调文物保护的重要性\n\n注意事项：\n- 如果用户问非文物相关问题，可以友好引导回文物话题\n- 对于价值评估要谨慎，强调市场波动性和专业鉴定必要性\n- 涉及法律法规要准确引用\n\n请用中文回复，保持专业、严谨、有帮助的态度。"

/-- The outbound conversation built at main.py lines 218-251: the system
instruction, then the stored history in order, then the new user message. -/
def build_messages (history : List Turn) (message : String) : List Turn :=
  (⟨"system", baichuan_system_content⟩ :: history) ++ [⟨"user", message⟩]

/-- get_ai_response_with_memory (main.py lines 211-322).  With a falsy
credential it returns None before touching the network (lines 214-215).
Otherwise the POST happens: transport errors and timeouts return None
(lines 317-322), a non-200 status returns None (lines 312-315), and a 200
status is parsed by parse_success_body. -/
def get_ai_response_with_memory (apiKey : Option String) (net : NetOutcome)
    (message : String) (history : List Turn) : AICallResult :=
  if apiKeyConfigured apiKey then
    match net with
    | NetOutcome.down => { result := none, network_called := true }
    | NetOutcome.reply status body =>
      if status = 200 then { result := parse_success_body body, network_called := true }
      else { result := none, network_called := true }
  else { result := none, network_called := false }

/-- The greeting detection tokens of main.py line 329. -/
def greeting_words : List String :=
  ["你好", "您好", "嗨", "hello", "hi"]

/-- The fixed greeting replies of main.py lines 330-334, in order. -/
def greeting_replies : List String :=
  ["您好！🏺 我是文鉴通助手，专注于文物鉴定和收藏知识。有什么文物相关的问题吗？",
   "欢迎！🔍 我是您的文物鉴定顾问，可以帮您了解各类文物的鉴别方法和历史背景。",
   "您好！📜 文鉴通助手为您服务，我们专注于文物鉴定、收藏和保护知识咨询。"]

/-- The keyword → canned-explanation mapping of main.py lines 337-344, in
declaration order. -/
def antique_keywords : List (String × String) :=
  [("陶瓷", "陶瓷鉴定需要观察胎质、釉色、纹饰等特征。不同朝代有独特的工艺特点，比如唐三彩、宋瓷、明清青花等各有特色。"),
   ("青铜器", "青铜器鉴定要看器型、纹饰、铭文和锈色。真品青铜器的锈色自然牢固，器型符合时代特征。"),
   ("书画", "书画鉴定涉及笔墨风格、题跋印章、纸张材质等多方面。需要对比画家不同时期的作品特征。"),
   ("玉器", "玉器鉴定要看玉质、工艺、沁色和包浆。不同历史时期的玉器在造型和雕工上各有特点。"),
   ("鉴定", "文物鉴定是一门专业学问，需要综合考虑历史、艺术、科技等多方面因素。建议重要文物找专业机构鉴定。"),
   ("收藏", "文物收藏要注意真伪鉴别、保存条件和法律法规。建议从基础学起，逐步积累经验。")]

/-- The for-loop of main.py lines 345-347: return the explanation of the
first keyword occurring as a substring of the message. -/
def keyword_scan : List (String × String) → String → Option String
  | [], _ => none
  | (k, resp) :: rest, msg => if strContains msg k then some resp else keyword_scan rest msg

/-- The default templated reply of main.py line 350, echoing the original
(case-preserving) message. -/
def default_reply (original : String) : String :=
  "🏺 关于『" ++ original ++ "』，我作为文物鉴定助手可以帮您：\n\n• 文物年代和背景知识\n• 材质工艺鉴别要点\n• 真伪辨别方法\n• 收藏保养建议\n• 相关法律法规\n\n请提供更具体的信息，我会尽力为您解答。对于重要文物，建议咨询专业鉴定机构."

/-- get_smart_response (main.py lines 324-350).  The only randomness is
random.choice over the fixed greeting list, modelled by the index
r mod 3 for an arbitrary r. -/
def get_smart_response (r : Nat) (message original : String) : String :=
  let user_msg := pyStrip (pyLower message)
  if greeting_words.any (fun w => strContains user_msg w) then
    greeting_replies.getD (r % greeting_replies.length) ""
  else
    match keyword_scan antique_keywords user_msg with
    | some response => response
    | none => default_reply original

/-- The pydantic response model of main.py lines 51-54; source keeps the
literal tags of the code, "baichuan" for the remote branch and
"rule_based" for the fallback branch. -/
structure ChatResponse where
  success : Bool
  response : String
  source : Option String
deriving DecidableEq, Repr

/-- The session-resolution step of chat_endpoint (main.py lines 359-362):
create a session for an unknown user id, then return the stored session.
The store is the user_sessions dict, modelled as an association list in
insertion order. -/
def get_or_create (now : Nat) (store : List (String × UserSession)) (uid : String) :
    UserSession × List (String × UserSession) :=
  match store.lookup uid with
  | some s => (s, store)
  | none => (UserSession.mk_new uid now, store ++ [(uid, UserSession.mk_new uid now)])

/-- Replace the session stored under a key (the in-place mutation of the
session object held by the dict, seen through the functional model). -/
def store_set : List (String × UserSession) → String → UserSession → List (String × UserSession)
  | [], uid, s => [(uid, s)]
  | (k, v) :: rest, uid, s =>
    if k = uid then (k, s) :: rest else (k, v) :: store_set rest uid s

/-- The rule-based branch of chat_endpoint (main.py lines 382-395): compute
the fallback reply on the lowercased message, append the pair to the
session, answer success with the rule_based source tag. -/
def fallback_turn (now r : Nat) (store : List (String × UserSession)) (user_id : String)
    (session : UserSession) (message : String) : ChatResponse × List (String × UserSession) :=
  ({ success := true
     response := get_smart_response r (pyLower message) message
     source := some "rule_based" },
   store_set store user_id (chat_reply_pair now session message (get_smart_response r (pyLower message) message)))

/-- The body of chat_endpoint (main.py lines 355-395): resolve the user id
(a fresh short uuid when the caller supplied none or an empty one), resolve
the session, try the remote client, and on a truthy remote reply answer it
with the baichuan source tag, otherwise take the rule-based branch. -/
def handle_message (now r : Nat) (apiKey : Option String) (net : NetOutcome)
    (store : List (String × UserSession)) (user_id_req : Option String) (uuid_fresh : String)
    (message : String) : ChatResponse × List (String × UserSession) :=
  let user_id :=
    match user_id_req with
    | some u => if u = "" then uuid_fresh else u
    | none => uuid_fresh
  let gc := get_or_create now store user_id
  match (get_ai_response_with_memory apiKey net message gc.1.messages).result with
  | some v =>
    if jTruthy v then
      ({ success := true, response := jvalToStr v, source := some "baichuan" },
       store_set gc.2 user_id (chat_reply_pair now gc.1 message (jvalToStr v)))
    else fallback_turn now r gc.2 user_id gc.1 message
  | none => fallback_turn now r gc.2 user_id gc.1 message

/-- The try/except of chat_endpoint (main.py lines 355 and 397-402): a
normally computed response passes through, any exception escaping the body
is converted to the fixed apology with success false and no source tag. -/
def chat_endpoint (outcome : Except String ChatResponse) : ChatResponse :=
  match outcome with
  | Except.ok resp => resp
  | Except.error _ => { success := false, response := "抱歉，服务暂时不可用，请稍后重试", source := none }

/-- One sweep of the cleanup loop body (main.py lines 410-419) with the
1-hour threshold: collect the user ids of sessions idle for strictly more
than 3600 seconds, then delete each collected id from the store; the count
of collected ids is what the log line reports. -/
def cleanup_sessions_once (now : Nat) (store : List (String × UserSession)) :
    List (String × UserSession) × Nat :=
  ((((store.filter (fun p => 3600 < now - p.2.last_activity)).map Prod.fst).foldl
      (fun acc uid => acc.filter (fun p => p.1 ≠ uid)) store),
   ((store.filter (fun p => 3600 < now - p.2.last_activity)).map Prod.fst).length)

/-- The pairing invariant of a session history: a concatenation of
(user, assistant) turn pairs.  It forces even length, strict alternation
starting with a user turn, and an assistant turn at the end when nonempty. -/
def paired : List Turn → Bool
  | [] => true
  | u :: a :: rest => u.role == "user" && a.role == "assistant" && paired rest
  | _ :: [] => false

/-- Each of the five documented response shapes, presented alone with
content text s, is extracted to s by the status-200 parser. -/
abbrev five_shapes_ok (s : String) : Prop :=
  parse_success_body (JVal.jobj [("choices", JVal.jarr [JVal.jobj [("message", JVal.jobj [("content", JVal.jstr s)])]])]) = some (JVal.jstr s) ∧
  parse_success_body (JVal.jobj [("choices", JVal.jarr [JVal.jobj [("text", JVal.jstr s)]])]) = some (JVal.jstr s) ∧
  parse_success_body (JVal.jobj [("content", JVal.jstr s)]) = some (JVal.jstr s) ∧
  parse_success_body (JVal.jobj [("data", JVal.jobj [("choices", JVal.jarr [JVal.jobj [("message", JVal.jobj [("content", JVal.jstr s)])]])])]) = some (JVal.jstr s) ∧
  parse_success_body (JVal.jobj [("output", JVal.jstr s)]) = some (JVal.jstr s) ∧
  parse_success_body (JVal.jobj [("output", JVal.jobj [("text", JVal.jstr s)])]) = some (JVal.jstr s)

/-- keepLast keeps a list of length at most 6 unchanged. -/
theorem keepLast_of_le {α : Type} (l : List α) (h : l.length ≤ 6) : keepLast 6 l = l := by
  unfold keepLast
  have h0 : l.length - 6 = 0 := by omega
  rw [h0, List.drop_zero]

/-- The trim step of add_message, applied after appending one turn to a
history that is already a 6-window, yields the 6-window of the extended
history. -/
theorem trim_keepLast (h : List Turn) (t : Turn) :
    (if 6 < (keepLast 6 h ++ [t]).length then
        (keepLast 6 h ++ [t]).drop ((keepLast 6 h ++ [t]).length - 6)
      else keepLast 6 h ++ [t])
      = keepLast 6 (h ++ [t]) := by
  by_cases hl : h.length ≤ 6
  · rw [keepLast_of_le h hl]
    by_cases h6 : 6 < (h ++ [t]).length
    · rw [if_pos h6]
      rfl
    · rw [if_neg h6]
      rw [keepLast_of_le (h ++ [t]) (Nat.le_of_not_lt h6)]
  · push_neg at hl
    have hk : (keepLast 6 h).length = 6 := by
      unfold keepLast
      rw [List.length_drop]
      omega
    have hcond : 6 < (keepLast 6 h ++ [t]).length := by
      rw [List.length_append, hk]
      simp
    rw [if_pos hcond, List.length_append, hk]
    show (keepLast 6 h ++ [t]).drop 1 = keepLast 6 (h ++ [t])
    rw [List.drop_append_eq_append_drop, hk]
    show (keepLast 6 h).drop 1 ++ [t].drop 0 = keepLast 6 (h ++ [t])
    rw [List.drop_zero]
    unfold keepLast
    rw [List.drop_drop, List.drop_append_eq_append_drop, List.length_append,
        List.length_singleton]
    have e3 : h.length + 1 - 6 - h.length = 0 := by omega
    rw [e3, List.drop_zero]
    have e4 : h.length - 6 + 1 = h.length + 1 - 6 := by omega
    rw [e4]

/-- add_message on a session whose history is the 6-window of h produces
the 6-window of h extended by the new turn. -/
theorem add_message_keepLast (s : UserSession) (now : Nat) (role content : String)
    (h : List Turn) (hs : s.messages = keepLast 6 h) :
    (s.add_message now role content).messages = keepLast 6 (h ++ [Turn.mk role content]) := by
  show (if 6 < (s.messages ++ [Turn.mk role content]).length then
      (s.messages ++ [Turn.mk role content]).drop ((s.messages ++ [Turn.mk role content]).length - 6)
    else s.messages ++ [Turn.mk role content]) = _
  rw [hs]
  exact trim_keepLast h (Turn.mk role content)

/-- Folding add_message over a turn sequence, starting from any session
whose history is the 6-window of h, lands on the 6-window of h extended by
all the appended turns. -/
theorem append_turns_messages : ∀ (ts : List (Nat × String × String)) (s : UserSession)
    (h : List Turn), s.messages = keepLast 6 h →
    (append_turns s ts).messages = keepLast 6 (h ++ ts.map (fun t => Turn.mk t.2.1 t.2.2))
  | [], _, _, hs => by
    simpa [append_turns] using hs
  | t :: ts, s, h, hs => by
    have step := add_message_keepLast s t.1 t.2.1 t.2.2 h hs
    have ih := append_turns_messages ts (s.add_message t.1 t.2.1 t.2.2)
      (h ++ [Turn.mk t.2.1 t.2.2]) step
    simp only [append_turns, List.foldl_cons] at ih ⊢
    rw [ih, List.append_assoc]
    simp

/-- C1: starting from a fresh session, after any sequence of add_message
calls the history is exactly the suffix of the most recently appended (at
most) 6 turns in their original append order, and its length never exceeds
6.  Quantifying over every turn sequence covers the state after each
individual append. -/
theorem history_sliding_window (u : String) (t0 : Nat) (ts : List (Nat × String × String)) :
    (append_turns (UserSession.mk_new u t0) ts).messages
        = keepLast 6 (ts.map (fun t => Turn.mk t.2.1 t.2.2))
      ∧ (append_turns (UserSession.mk_new u t0) ts).messages.length ≤ 6 := by
  have h := append_turns_messages ts (UserSession.mk_new u t0) [] rfl
  rw [List.nil_append] at h
  refine ⟨h, ?_⟩
  rw [h]
  unfold keepLast
  rw [List.length_drop]
  omega

/-- A nonempty string is truthy. -/
theorem jTruthy_jstr (s : String) (hs : s ≠ "") : jTruthy (JVal.jstr s) = true := by
  simp [jTruthy, hs]

/-- When the dispatch chain assigns a nonempty string, the status-200
parser returns exactly that string. -/
theorem parse_of_resp (data : JVal) (s : String) (hs : s ≠ "")
    (he : extract_ai_response data = ParseOut.resp (JVal.jstr s)) :
    parse_success_body data = some (JVal.jstr s) := by
  unfold parse_success_body
  rw [he]
  show (if jTruthy (JVal.jstr s) then some (JVal.jstr s)
      else some (JVal.jstr (dump_reply data))) = some (JVal.jstr s)
  rw [if_pos (jTruthy_jstr s hs)]

/-- C2 (code bug): on a success status whose body matches none of the known
shapes (here the empty JSON object), get_ai_response_with_memory does not
return failure; it returns the diagnostic dump embedding the raw payload,
and chat_endpoint forwards that dump verbatim as a successful reply with
the baichuan source tag.  This contradicts the claim, which the spec itself
flags as the intended behaviour the source deviates from. -/
theorem unparsed_body_returned_as_reply :
    parse_success_body (JVal.jobj []) = some (JVal.jstr "响应格式不识别，原始数据: \x7b\x7d") ∧
    (handle_message 0 0 (some "key") (NetOutcome.reply 200 (JVal.jobj [])) [] (some "u1") "f" "hi").1
      = { success := true, response := "响应格式不识别，原始数据: \x7b\x7d", source := some "baichuan" } :=
  ⟨rfl, rfl⟩

/-- C3 (counterexample): a success body whose choices entry is unusable but
which also carries a flat content field does not extract the flat content,
contrary to the claim that the first shape yielding non-empty text wins. -/
theorem shape_priority_counterexample :
    parse_success_body (JVal.jobj [("choices", JVal.jarr [JVal.jobj []]), ("content", JVal.jstr "hello")])
      ≠ some (JVal.jstr "hello") := by
  rw [show parse_success_body (JVal.jobj [("choices", JVal.jarr [JVal.jobj []]), ("content", JVal.jstr "hello")])
      = some (JVal.jstr "响应格式不识别，原始数据: \x7b\x27choices\x27: [\x7b\x7d], \x27content\x27: \x27hello\x27\x7d") from rfl]
  simp only [ne_eq, Option.some.injEq, JVal.jstr.injEq]
  decide

/-- C3 (amended): each of the five documented shapes presented alone is
extracted correctly, but the dispatch is on top-level key presence in the
fixed order (non-empty choices, content, data, output): when the choices
key is present with a non-empty array whose first element yields no text,
the chain ends with no match (the diagnostic-dump path) regardless of any
remaining fields, instead of falling through to a later shape. -/
theorem shape_dispatch_amended (s : String) (rest : List (String × JVal)) (hs : s ≠ "") :
    five_shapes_ok s ∧
    extract_ai_response (JVal.jobj (("choices", JVal.jarr [JVal.jobj []]) :: rest))
      = ParseOut.nomatch :=
  ⟨⟨parse_of_resp _ s hs rfl, parse_of_resp _ s hs rfl, parse_of_resp _ s hs rfl,
    parse_of_resp _ s hs rfl, parse_of_resp _ s hs rfl, parse_of_resp _ s hs rfl⟩, rfl⟩

/-- Witness for shape_dispatch_amended at s = "ok", with the remaining
fields holding a flat content entry that is ignored. -/
theorem shape_dispatch_amended_witness :
    (("ok" : String) ≠ "") ∧
    (five_shapes_ok "ok" ∧
      extract_ai_response (JVal.jobj (("choices", JVal.jarr [JVal.jobj []])
          :: [("content", JVal.jstr "hello")])) = ParseOut.nomatch) :=
  ⟨by decide, shape_dispatch_amended "ok" [("content", JVal.jstr "hello")] (by decide)⟩

/-- C5: with a falsy provider credential, get_ai_response_with_memory
returns failure (None) and the network flag stays false: no network call is
performed, whatever the network would have answered. -/
theorem missing_key_no_network_call (apiKey : Option String) (net : NetOutcome)
    (message : String) (history : List Turn) (hk : apiKeyConfigured apiKey = false) :
    get_ai_response_with_memory apiKey net message history
      = { result := none, network_called := false } := by
  simp [get_ai_response_with_memory, hk]

/-- Witness for missing_key_no_network_call with an absent key. -/
theorem missing_key_no_network_call_witness :
    apiKeyConfigured none = false ∧
    get_ai_response_with_memory none NetOutcome.down "你好" []
      = { result := none, network_called := false } :=
  ⟨rfl, missing_key_no_network_call none NetOutcome.down "你好" [] rfl⟩

/-- C7: every exception escaping the orchestration body of chat_endpoint is
caught and converted to success false with the fixed apology text and no
source tag; the handler is total, so no error propagates to the caller. -/
theorem orchestration_error_caught (e : String) :
    chat_endpoint (Except.error e)
      = { success := false, response := "抱歉，服务暂时不可用，请稍后重试", source := none } := rfl

/-- A getD access below the length is a member of the list. -/
theorem getD_mem_of_lt {α : Type} (l : List α) (d : α) (n : Nat) (h : n < l.length) :
    l.getD n d ∈ l := by
  rw [List.getD_eq_getElem l d h]
  exact List.getElem_mem h

/-- C4: with no provider credential configured, a chat turn for user "u1"
with message 你好 succeeds, carries the fallback source tag (literal
rule_based in the source), and its reply is one of the three fixed greeting
strings of get_smart_response — for every store state, random draw and
network condition. -/
theorem fallback_greeting_end_to_end (now r : Nat) (net : NetOutcome)
    (store : List (String × UserSession)) (uuid_fresh : String) :
    (handle_message now r none net store (some "u1") uuid_fresh "你好").1.success = true ∧
    (handle_message now r none net store (some "u1") uuid_fresh "你好").1.source = some "rule_based" ∧
    (handle_message now r none net store (some "u1") uuid_fresh "你好").1.response ∈ greeting_replies := by
  refine ⟨rfl, rfl, ?_⟩
  have hr : (handle_message now r none net store (some "u1") uuid_fresh "你好").1.response
      = greeting_replies.getD (r % greeting_replies.length) "" := rfl
  rw [hr]
  exact getD_mem_of_lt greeting_replies "" (r % greeting_replies.length)
    (Nat.mod_lt r (by decide))

/-- The keyword loop of get_smart_response returns the explanation of the
first entry, in declaration order, whose keyword occurs in the message. -/
theorem keyword_scan_eq_find : ∀ (l : List (String × String)) (msg : String),
    keyword_scan l msg = (l.find? (fun p => strContains msg p.1)).map Prod.snd
  | [], _ => rfl
  | (k, resp) :: rest, msg => by
    rw [keyword_scan]
    cases h : strContains msg k with
    | true => simp [List.find?, h]
    | false => simp [List.find?, h, keyword_scan_eq_find rest msg]

/-- C8: when the (lowercased, stripped) message contains no greeting token,
get_smart_response answers the canned explanation of the first keyword in
mapping-declaration order that occurs as a substring of the message — for
every random draw r. -/
theorem fallback_first_keyword (r : Nat) (message original : String) (kv : String × String)
    (hg : greeting_words.any (fun w => strContains (pyStrip (pyLower message)) w) = false)
    (hf : antique_keywords.find? (fun p => strContains (pyStrip (pyLower message)) p.1) = some kv) :
    get_smart_response r message original = kv.2 := by
  unfold get_smart_response
  simp only [hg, Bool.false_eq_true, if_false, keyword_scan_eq_find, hf]
  rfl

/-- Witness for fallback_first_keyword on a message containing both 陶瓷
and 收藏: the 陶瓷 explanation wins by declaration order. -/
theorem fallback_first_keyword_witness :
    greeting_words.any (fun w => strContains (pyStrip (pyLower "陶瓷收藏")) w) = false ∧
    antique_keywords.find? (fun p => strContains (pyStrip (pyLower "陶瓷收藏")) p.1)
      = some ("陶瓷", "陶瓷鉴定需要观察胎质、釉色、纹饰等特征。不同朝代有独特的工艺特点，比如唐三彩、宋瓷、明清青花等各有特色。") ∧
    get_smart_response 0 "陶瓷收藏" "陶瓷收藏"
      = "陶瓷鉴定需要观察胎质、釉色、纹饰等特征。不同朝代有独特的工艺特点，比如唐三彩、宋瓷、明清青花等各有特色。" :=
  ⟨by decide, by decide,
    fallback_first_keyword 0 "陶瓷收藏" "陶瓷收藏"
      ("陶瓷", "陶瓷鉴定需要观察胎质、釉色、纹饰等特征。不同朝代有独特的工艺特点，比如唐三彩、宋瓷、明清青花等各有特色。")
      (by decide) (by decide)⟩

/-- Appending a fresh binding at the end of a store in which the key is
absent makes lookup find exactly that binding. -/
theorem lookup_append_self : ∀ (store : List (String × UserSession)) (u : String) (s : UserSession),
    store.lookup u = none → (store ++ [(u, s)]).lookup u = some s
  | [], u, s, _ => by simp [List.lookup]
  | (k, v) :: rest, u, s, h => by
    rw [List.cons_append]
    rw [List.lookup] at h ⊢
    cases hk : (u == k) with
    | true => rw [hk] at h; exact Option.noConfusion h
    | false => rw [hk] at h; exact lookup_append_self rest u s h

/-- C9: resolving the same user id twice with no intervening eviction
returns the very same session both times, and the second resolution leaves
the store — hence every stored history and timestamp — unchanged. -/
theorem get_or_create_idempotent (t1 t2 : Nat) (store : List (String × UserSession)) (u : String) :
    (get_or_create t2 (get_or_create t1 store u).2 u).1 = (get_or_create t1 store u).1 ∧
    (get_or_create t2 (get_or_create t1 store u).2 u).2 = (get_or_create t1 store u).2 := by
  unfold get_or_create
  cases h : store.lookup u with
  | some s => simp [h]
  | none => simp [h, lookup_append_self store u (UserSession.mk_new u t1) h]

/-- Deleting a list of keys one by one equals a single filter keeping only
entries whose key is outside the list. -/
theorem foldl_del_eq_filter : ∀ (ids : List String) (st : List (String × UserSession)),
    ids.foldl (fun acc uid => acc.filter (fun p => p.1 ≠ uid)) st
      = st.filter (fun p => p.1 ∉ ids)
  | [], st => by simp
  | i :: is, st => by
    rw [List.foldl_cons, foldl_del_eq_filter is (st.filter (fun p => p.1 ≠ i)),
      List.filter_filter]
    refine List.filter_congr ?_
    intro p _
    by_cases h1 : p.1 = i
    · simp [h1]
    · by_cases h2 : p.1 ∈ is <;> simp [h1, h2]

/-- C6: one sweep of the idle-session cleanup with the 1-hour threshold
removes exactly the sessions whose last activity is strictly older than
now minus 3600 seconds and no others, and reports their number — for every
store whose keys are distinct (a Python dict guarantee). -/
theorem cleanup_evicts_exactly_idle (now : Nat) (store : List (String × UserSession))
    (hnd : (store.map Prod.fst).Nodup) :
    (cleanup_sessions_once now store).1
        = store.filter (fun p => ¬ 3600 < now - p.2.last_activity) ∧
    (cleanup_sessions_once now store).2
        = (store.filter (fun p => 3600 < now - p.2.last_activity)).length := by
  constructor
  · show ((store.filter (fun p => 3600 < now - p.2.last_activity)).map Prod.fst).foldl
        (fun acc uid => acc.filter (fun p => p.1 ≠ uid)) store = _
    rw [foldl_del_eq_filter]
    refine List.filter_congr ?_
    intro p hp
    have hiff : p.1 ∈ (store.filter (fun q => 3600 < now - q.2.last_activity)).map Prod.fst
        ↔ 3600 < now - p.2.last_activity := by
      constructor
      · intro hmem
        obtain ⟨q, hq, hq1⟩ := List.mem_map.mp hmem
        obtain ⟨hqs, hqe⟩ := List.mem_filter.mp hq
        have hpq : q = p := List.inj_on_of_nodup_map hnd hqs hp hq1
        rw [hpq] at hqe
        simpa using hqe
      · intro hex
        exact List.mem_map.mpr ⟨p, List.mem_filter.mpr ⟨hp, by simpa using hex⟩, rfl⟩
    rw [decide_eq_decide]
    exact not_congr hiff
  · show (((store.filter (fun p => 3600 < now - p.2.last_activity)).map Prod.fst)).length = _
    rw [List.length_map]

/-- Witness for cleanup_evicts_exactly_idle on the documented scenario: two
sessions last active 2 hours (7200 s) and 10 minutes (600 s) before now;
exactly the first is removed and the removed count is 1. -/
theorem cleanup_evicts_exactly_idle_witness :
    (([("a", UserSession.mk "a" [] 0 2800), ("b", UserSession.mk "b" [] 0 9400)].map Prod.fst).Nodup) ∧
    ((cleanup_sessions_once 10000 [("a", UserSession.mk "a" [] 0 2800), ("b", UserSession.mk "b" [] 0 9400)]).1
        = [("b", UserSession.mk "b" [] 0 9400)] ∧
      (cleanup_sessions_once 10000 [("a", UserSession.mk "a" [] 0 2800), ("b", UserSession.mk "b" [] 0 9400)]).2
        = 1) := by
  refine ⟨by decide, ?_⟩
  have h := cleanup_evicts_exactly_idle 10000
    [("a", UserSession.mk "a" [] 0 2800), ("b", UserSession.mk "b" [] 0 9400)] (by decide)
  exact ⟨h.1.trans (by decide), h.2.trans (by decide)⟩

/-- A paired history has even length and, when nonempty, ends with an
assistant turn. -/
theorem paired_props : ∀ l : List Turn, paired l = true →
    l.length % 2 = 0 ∧ (l = [] ∨ l.getLast?.map Turn.role = some "assistant")
  | [], _ => ⟨rfl, Or.inl rfl⟩
  | [_], hp => by simp [paired] at hp
  | u :: a :: rest, hp => by
    simp only [paired, Bool.and_eq_true, beq_iff_eq] at hp
    obtain ⟨⟨hu, ha⟩, hrest⟩ := hp
    have ih := paired_props rest hrest
    constructor
    · simp only [List.length_cons]
      omega
    · right
      rcases ih.2 with h | h
      · subst h
        simp [List.getLast?, ha]
      · rw [List.getLast?_cons_cons]
        cases rest with
        | nil => simp at h
        | cons r rs => rw [List.getLast?_cons_cons]; exact h

/-- Appending one (user, assistant) pair to a paired history keeps it
paired. -/
theorem paired_append_pair : ∀ (m : List Turn) (c1 c2 : String),
    paired m = true → paired (m ++ [Turn.mk "user" c1, Turn.mk "assistant" c2]) = true
  | [], _, _, _ => by simp [paired]
  | [_], _, _, hp => by simp [paired] at hp
  | x :: y :: rest, c1, c2, hp => by
    simp only [paired, Bool.and_eq_true, beq_iff_eq] at hp
    simp only [List.cons_append, paired, Bool.and_eq_true, beq_iff_eq]
    exact ⟨hp.1, paired_append_pair rest c1 c2 hp.2⟩

/-- The history after the user/assistant append pair of a completed chat
turn is the 6-window of the previous history extended by the two turns. -/
theorem chat_reply_pair_messages (now : Nat) (s : UserSession) (message reply : String)
    (hl : s.messages.length ≤ 6) :
    (chat_reply_pair now s message reply).messages
      = keepLast 6 (s.messages ++ [Turn.mk "user" message, Turn.mk "assistant" reply]) := by
  have e1 := add_message_keepLast s now "user" message s.messages (keepLast_of_le _ hl).symm
  have e2 := add_message_keepLast (s.add_message now "user" message) now "assistant" reply
    (s.messages ++ [Turn.mk "user" message]) e1
  unfold chat_reply_pair
  rw [e2, List.append_assoc]
  rfl

/-- C10: a completed chat turn appends a (user, assistant) pair via
chat_reply_pair in both branches of chat_endpoint, so for every session
satisfying the pairing invariant with the 6-bound, the history after the
turn is again paired: even length, strict user/assistant alternation
starting with user, ending with an assistant turn — the trim-to-6 window
always drops whole pairs here. -/
theorem chat_turn_history_pairing (now : Nat) (s : UserSession) (message reply : String)
    (hp : paired s.messages = true) (hl : s.messages.length ≤ 6) :
    paired (chat_reply_pair now s message reply).messages = true ∧
    (chat_reply_pair now s message reply).messages.length ≤ 6 ∧
    (chat_reply_pair now s message reply).messages.length % 2 = 0 ∧
    (chat_reply_pair now s message reply).messages.getLast?.map Turn.role = some "assistant" := by
  have h1 := chat_reply_pair_messages now s message reply hl
  have hpk : paired (keepLast 6 (s.messages
      ++ [Turn.mk "user" message, Turn.mk "assistant" reply])) = true := by
    by_cases hc : s.messages.length ≤ 4
    · rw [keepLast_of_le _ (by rw [List.length_append]; simp; omega)]
      exact paired_append_pair s.messages message reply hp
    · have hev := (paired_props s.messages hp).1
      have h6 : s.messages.length = 6 := by omega
      have hk2 : keepLast 6 (s.messages ++ [Turn.mk "user" message, Turn.mk "assistant" reply])
          = s.messages.drop 2 ++ [Turn.mk "user" message, Turn.mk "assistant" reply] := by
        unfold keepLast
        rw [List.length_append, h6, List.drop_append_eq_append_drop, h6]
        rfl
      rw [hk2]
      rcases hm : s.messages with _ | ⟨x, _ | ⟨y, rest⟩⟩
      · rw [hm] at h6; simp at h6
      · rw [hm] at h6; simp at h6
      · rw [hm] at hp
        simp only [paired, Bool.and_eq_true, beq_iff_eq] at hp
        exact paired_append_pair rest message reply hp.2
  have hpp : paired (chat_reply_pair now s message reply).messages = true := by
    rw [h1]; exact hpk
  have hlen : (chat_reply_pair now s message reply).messages.length ≤ 6 := by
    rw [h1]; unfold keepLast; rw [List.length_drop]; omega
  have hprops := paired_props _ hpp
  refine ⟨hpp, hlen, hprops.1, ?_⟩
  rcases hprops.2 with hnil | hlast
  · have h2 : (chat_reply_pair now s message reply).messages.length = 0 := by rw [hnil]; rfl
    rw [h1] at h2
    unfold keepLast at h2
    rw [List.length_drop, List.length_append] at h2
    simp at h2
    exact absurd h2 (by omega)
  · exact hlast

/-- Witness for chat_turn_history_pairing on a fresh (empty, paired)
session. -/
theorem chat_turn_history_pairing_witness :
    paired (UserSession.mk "u" [] 0 0).messages = true ∧
    (UserSession.mk "u" [] 0 0).messages.length ≤ 6 ∧
    (paired (chat_reply_pair 5 (UserSession.mk "u" [] 0 0) "你好" "回复").messages = true ∧
      (chat_reply_pair 5 (UserSession.mk "u" [] 0 0) "你好" "回复").messages.length ≤ 6 ∧
      (chat_reply_pair 5 (UserSession.mk "u" [] 0 0) "你好" "回复").messages.length % 2 = 0 ∧
      (chat_reply_pair 5 (UserSession.mk "u" [] 0 0) "你好" "回复").messages.getLast?.map Turn.role
        = some "assistant") :=
  ⟨by decide, by decide,
    chat_turn_history_pairing 5 (UserSession.mk "u" [] 0 0) "你好" "回复" (by decide) (by decide)⟩
